import Mathlib

/-!
Verification of the device-flow authentication library (vsts-device-flow-auth).

The development shallowly embeds the TypeScript source: each embedded
definition mirrors one function (or one call site) of the source file.
JavaScript objects whose fields matter to the flow are modelled as
association lists of string fields; JavaScript truthiness of a possibly
absent string field (`undefined` or the empty string are falsy) is
modelled by `truthy` on `Option String`; a thrown exception is modelled
by `Except`.
-/

namespace DeviceFlow

/-! ### DeviceCodeStatus — the four string sentinels of the source -/

def PENDING : String := "PENDING"
def BACKOFF : String := "BACKOFF"
def BADCODE : String := "BADCODE"
def EXPIRED : String := "EXPIRED"

/-! ### JSON bodies

A response body is either text that `JSON.parse` rejects, or an object
whose string-valued fields we keep as an association list (the source
only ever reads string fields from these bodies). -/

inductive Body where
  | malformed : Body
  | obj (fields : List (String × String)) : Body
deriving DecidableEq, Repr

def getField (fields : List (String × String)) (key : String) : Option String :=
  (fields.find? (fun p => p.1 = key)).map (fun p => p.2)

/-- JavaScript truthiness of a string field: `undefined` and `""` are falsy. -/
def truthy : Option String → Bool
  | none => false
  | some s => s ≠ ""

/-! ### The token poll — `waitOnResponseAccessToken`

The HTTP layer either resolves with a body, or rejects with an error
that carries an optional numeric `statusCode` and an optional raw error
body (`err.error`); `none` for the error body models a falsy
`err.error`. -/

structure HttpFailure where
  statusCode : Option Nat
  errorBody : Option Body
deriving DecidableEq, Repr

inductive PollResp where
  | ok (body : Body) : PollResp
  | err (e : HttpFailure) : PollResp
deriving DecidableEq, Repr

/-- How `waitOnResponseAccessToken` can reject.
`noAccessToken`: the success body parsed but had a falsy `access_token`
(the `then` handler throws; the `catch` sees no `statusCode` and
rethrows). `parseError`: `JSON.parse` threw, in the `then` handler or on
`err.error` inside the `catch`; the resulting `SyntaxError` propagates.
`transport e`: the original transport error is rethrown by `throw err`. -/
inductive PollError where
  | noAccessToken : PollError
  | parseError : PollError
  | transport (e : HttpFailure) : PollError
deriving DecidableEq, Repr

/-- Embeds `waitOnResponseAccessToken` (lines 279–344 of the source): the
`then` handler on a resolved response, composed with the `catch` handler
on a rejection. The returned string is either the `access_token` value or
one of the four `DeviceCodeStatus` sentinels. -/
def waitOnResponseAccessToken : PollResp → Except PollError String
  | .ok .malformed => .error .parseError
  | .ok (.obj fields) =>
      match getField fields "access_token" with
      | some tok => if tok ≠ "" then .ok tok else .error .noAccessToken
      | none => .error .noAccessToken
  | .err e =>
      if e.statusCode = some 400 ∧ e.errorBody ≠ none then
        match e.errorBody with
        | some .malformed => .error .parseError
        | some (.obj fields) =>
            if getField fields "error" = some "authorization_pending" then .ok PENDING
            else if getField fields "error" = some "slow_down" then .ok BACKOFF
            else if getField fields "error" = some "bad_verification_code" then .ok BADCODE
            else if getField fields "error" = some "code_expired" then .ok EXPIRED
            else .error (.transport e)
        | none => .error (.transport e)
      else .error (.transport e)

/-! ### Tenant resolution — `getTenantId` -/

def EMPTY_GUID : String := "00000000-0000-0000-0000-000000000000"

/-- Headers of an HTTP response, as read off `body.response` in the `try`
branch or `error.response` in the `catch` branch of `getTenantId`. -/
abbrev Headers := List (String × String)

/-- Outcome of the HEAD probe to the resource URI. `response := none`
models the case where the value the header is read from carries no
`response` object at all. A `resolved none` outcome throws a `TypeError`
inside the `try` block; the `catch` block then reads `.response` off that
`TypeError` — which has none — and throws a second, uncaught `TypeError`,
so both `none` cases end in the same uncaught `TypeError`. -/
inductive HeadOutcome where
  | resolved (response : Option Headers) : HeadOutcome
  | rejected (response : Option Headers) : HeadOutcome
deriving DecidableEq, Repr

/-- How `getTenantId` can reject. `missingHeader` is the explicit
`Did not receive tenant id from ...` error thrown when the header value is
falsy on both paths. `noResponseTypeError` is the `TypeError` thrown by
reading the header off a missing `response` object. `allZeroTypeError` is
the `TypeError` thrown by `tenantId.trim()` when a multi-id header lists
only all-zero sentinels, so `tenantId` is never assigned. -/
inductive TenantError where
  | noResponseTypeError : TenantError
  | missingHeader : TenantError
  | allZeroTypeError : TenantError
deriving DecidableEq, Repr

/-- The `try`/`catch` of `getTenantId` (lines 247–252): extract the
`x-vss-resourcetenant` header from the resolved body's response or the
caught error's response. -/
def readResourceTenant : HeadOutcome → Except TenantError (Option String)
  | .resolved (some r) => .ok (getField r "x-vss-resourcetenant")
  | .resolved none => .error .noResponseTypeError
  | .rejected (some r) => .ok (getField r "x-vss-resourcetenant")
  | .rejected none => .error .noResponseTypeError

/-- JavaScript `String.split` with a one-character separator: split at
every occurrence, keeping empty pieces (`"a,".split(',')` is
`["a", ""]`, `"".split(',')` is `[""]`). -/
def jsSplitAux (sep : Char) : List Char → List Char → List String
  | [], acc => [String.mk acc.reverse]
  | c :: cs, acc =>
      if c = sep then String.mk acc.reverse :: jsSplitAux sep cs []
      else jsSplitAux sep cs (c :: acc)

def jsSplit (s : String) (sep : Char) : List String :=
  jsSplitAux sep s.toList []

/-- JavaScript `String.trim`: drop leading and trailing whitespace. -/
def jsTrim (s : String) : String :=
  String.mk (((s.toList.dropWhile Char.isWhitespace).reverse.dropWhile
    Char.isWhitespace).reverse)

/-- The id-selection logic of `getTenantId` (lines 254–265 and the final
`tenantId.trim()`): split on commas; with more than one candidate take the
first that is not the all-zero guid (`none` when every candidate is the
sentinel, in which case the source's `tenantId` stays `undefined`);
otherwise take the single candidate; trim the result. -/
def selectTenantId (resourceTenant : String) : Option String :=
  let tenantIds := jsSplit resourceTenant ','
  let found := if tenantIds.length > 1
    then tenantIds.find? (fun id => id ≠ EMPTY_GUID)
    else tenantIds.head?
  found.map jsTrim

/-- Embeds `getTenantId` (lines 238–271). -/
def getTenantId (h : HeadOutcome) : Except TenantError String :=
  match readResourceTenant h with
  | .error e => .error e
  | .ok resourceTenant =>
      if truthy resourceTenant then
        match selectTenantId (resourceTenant.getD "") with
        | some t => .ok t
        | none => .error .allZeroTypeError
      else .error .missingHeader

/-- Models the prefix of `GetDeviceFlowDetails` (lines 348–365) up to the
device-code POST: the tenant is resolved first (line 349), and a failure
there rejects `GetDeviceFlowDetails` before the device-code request is
built or issued. The boolean records whether the device-code POST is
reached. -/
def getDeviceFlowDetailsTenantPhase (h : HeadOutcome) : Except TenantError String × Bool :=
  match getTenantId h with
  | .error e => (.error e, false)
  | .ok t => (.ok t, true)

/-! ### Construction — the `DeviceFlowAuthenticator` constructor -/

def DefaultAuthorityHost : String := "https://management.core.windows.net/"
def DefaultGrantType : String := "device_code"

/-- `a || b` on a possibly absent string: the default applies when the
field is `undefined` or the empty string. -/
def jsOrDefault (v : Option String) (dflt : String) : String :=
  match v with
  | some s => if s ≠ "" then s else dflt
  | none => dflt

structure AuthOptions where
  authorityHost : Option String
  clientId : Option String
  redirectUri : Option String
  userAgent : Option String
deriving Repr

structure TokenOptions where
  grantType : Option String
  tokenScope : Option String
  tokenDescription : Option String
deriving Repr

/-- The fields of a `DeviceFlowAuthenticator` instance. -/
structure State where
  resourceUri : String
  authorityHost : String
  clientId : String
  redirectUri : String
  userAgent : String
  grantType : String
  tokenScope : String
  tokenDescription : String
  tenantId : Option String
  deviceCode : Option String
  interval : Nat
  expiresIn : Nat
  cancelFlag : Bool
  throwExceptionOnCancel : Bool
deriving Repr

/-- Embeds `addTrailingSeparator` (lines 122–127): compare the last
character with the (single-character) separator and append when distinct. -/
def addTrailingSeparator (path separator : String) : String :=
  if path.takeRight 1 ≠ separator then path ++ separator else path

/-- Embeds `getDefaultUserAgent` (lines 117–119); the OS and Node values
come from the environment and are passed in. -/
def getDefaultUserAgent (osType osRelease nodeVersion : String) : String :=
  "vsts-device-flow-auth (" ++ osType ++ " " ++ osRelease ++ "; Node " ++ nodeVersion ++ ")"

/-- How the constructor can throw. `undefinedTokenOptions` is the
`TypeError` from evaluating `tokenOptions.grantType` (line 110) when the
optional `tokenOptions` argument was omitted (`undefined`). -/
inductive CtorError where
  | missingResourceUri : CtorError
  | missingClientId : CtorError
  | missingRedirectUri : CtorError
  | undefinedTokenOptions : CtorError
deriving DecidableEq, Repr

/-- Embeds the `DeviceFlowAuthenticator` constructor (lines 96–115).
`defaultUserAgent` stands for the environment-dependent
`getDefaultUserAgent()` value. The two explicit validations run first
(lines 97–107); the dereference of the optional `tokenOptions` argument
(line 110) then throws a `TypeError` when the argument was omitted. -/
def mkDeviceFlowAuthenticator (resourceUri : String) (authOptions : AuthOptions)
    (tokenOptions : Option TokenOptions) (defaultUserAgent : String) :
    Except CtorError State :=
  if resourceUri = "" then .error .missingResourceUri
  else if ¬ truthy authOptions.clientId then .error .missingClientId
  else if ¬ truthy authOptions.redirectUri then .error .missingRedirectUri
  else
    match tokenOptions with
    | none => .error .undefinedTokenOptions
    | some tOpts =>
        .ok {
          resourceUri := addTrailingSeparator resourceUri "/"
          authorityHost := jsOrDefault authOptions.authorityHost DefaultAuthorityHost
          clientId := authOptions.clientId.getD ""
          redirectUri := authOptions.redirectUri.getD ""
          userAgent := jsOrDefault authOptions.userAgent defaultUserAgent
          grantType := jsOrDefault tOpts.grantType DefaultGrantType
          tokenScope := jsOrDefault tOpts.tokenScope ""
          tokenDescription := jsOrDefault tOpts.tokenDescription
            "vsts-device-flow-auth Personal Access Token"
          tenantId := none
          deviceCode := none
          interval := 5 * 1000
          expiresIn := 900 * 1000
          cancelFlag := false
          throwExceptionOnCancel := false }

/-- Embeds `Cancel` (lines 391–394). The argument is optional in the
source; `Cancel()` stores `undefined`, which is falsy where
`throwExceptionOnCancel` is later tested, so it is recorded as `false`. -/
def Cancel (s : State) (throwExceptionOnCancel : Option Bool) : State :=
  { s with cancelFlag := true,
           throwExceptionOnCancel := throwExceptionOnCancel.getD false }

/-! ### Request headers at each call site -/

def base64Alphabet : List Char :=
  "ABCDEFGHIJKLMNOPQRSTUVWXYZabcdefghijklmnopqrstuvwxyz0123456789+/".toList

def base64Digit (n : Nat) : Char := base64Alphabet.getD n 'A'

def base64Chunk : List Nat → String
  | [a] => String.mk [base64Digit (a / 4), base64Digit (a % 4 * 16)] ++ "=="
  | [a, b] => String.mk [base64Digit (a / 4), base64Digit (a % 4 * 16 + b / 16),
      base64Digit (b % 16 * 4)] ++ "="
  | [a, b, c] => String.mk [base64Digit (a / 4), base64Digit (a % 4 * 16 + b / 16),
      base64Digit (b % 16 * 4 + c / 64), base64Digit (c % 64)]
  | _ => ""

def base64Encode : List Nat → String
  | [] => ""
  | a :: b :: c :: rest => base64Chunk [a, b, c] ++ base64Encode rest
  | rest => base64Chunk rest

def stringUtf8Bytes (s : String) : List Nat :=
  s.toUTF8.toList.map (fun b => b.toNat)

/-- `"Basic " + new Buffer("PAT:" + accessToken).toString("base64")`. -/
def basicAuthValue (accessToken : String) : String :=
  "Basic " ++ base64Encode (stringUtf8Bytes ("PAT:" ++ accessToken))

/-- Embeds `getAuthorizationHeaders` (lines 130–136). -/
def getAuthorizationHeaders (userAgent accessToken : String) : Headers :=
  [("Authorization", basicAuthValue accessToken),
   ("X-TFS-FedAuthRedirect", "Suppress"),
   ("User-Agent", userAgent)]

/-- Embeds `getUserAgentHeaders` (lines 138–142). -/
def getUserAgentHeaders (userAgent : String) : Headers :=
  [("User-Agent", userAgent)]

/-- The value a call site places under `headers` in its request options.
`unappliedFunction` models the tenant-probe site (line 241), which writes
`headers: this.getUserAgentHeaders` — the method itself, never invoked —
so no header map reaches the transport for that request. -/
inductive HeadersValue where
  | map (h : Headers) : HeadersValue
  | unappliedFunction : HeadersValue
deriving DecidableEq, Repr

/-- `headers` of the HEAD tenant probe (line 241). -/
def tenantProbeHeaders : HeadersValue := .unappliedFunction

/-- `headers` of the device-code POST (line 358). -/
def deviceCodeRequestHeaders (userAgent : String) : HeadersValue :=
  .map (getUserAgentHeaders userAgent)

/-- `headers` of each token-poll POST (line 287). -/
def tokenPollHeaders (userAgent : String) : HeadersValue :=
  .map (getUserAgentHeaders userAgent)

/-- `headers` of the connection-data GET (line 149). -/
def connectionDataHeaders (userAgent accessToken : String) : HeadersValue :=
  .map (getAuthorizationHeaders userAgent accessToken)

/-- `headers` of the location-service GET (line 182). -/
def locationServiceHeaders (userAgent accessToken : String) : HeadersValue :=
  .map (getAuthorizationHeaders userAgent accessToken)

/-- `headers` of the session-token POST (line 225). -/
def sessionTokenHeaders (userAgent accessToken : String) : HeadersValue :=
  .map (getAuthorizationHeaders userAgent accessToken)

def carriesUserAgent : HeadersValue → Bool
  | .map h => (getField h "User-Agent").isSome
  | .unappliedFunction => false

/-! ### The session-token POST body — `getScopedCompactAccessToken` -/

/-- JSON values appearing in the `json: true` POST body. -/
inductive JVal where
  | str (s : String) : JVal
  | arr (elems : List JVal) : JVal
deriving Repr

def isArrayValue : Option JVal → Bool
  | some (.arr _) => true
  | _ => false

/-- Embeds the `body` of the session-token POST options (line 223):
`targetAccounts` is the template-literal string `["<userId>"]` — a string,
not an array. -/
def sessionTokenBody (tokenScope userId tokenDescription : String) :
    List (String × JVal) :=
  [("scope", .str tokenScope),
   ("targetAccounts", .str ("[\"" ++ userId ++ "\"]")),
   ("displayName", .str tokenDescription)]

def getJField (fields : List (String × JVal)) (key : String) : Option JVal :=
  (fields.find? (fun p => p.1 = key)).map (fun p => p.2)

def jsonEscapeChar (c : Char) : String :=
  if c = '\\' then "\\\\" else if c = '"' then "\\\"" else String.mk [c]

def jsonEscapeList : List Char → String
  | [] => ""
  | c :: cs => jsonEscapeChar c ++ jsonEscapeList cs

def jsonEscape (s : String) : String :=
  jsonEscapeList s.toList

def joinComma : List String → String
  | [] => ""
  | [x] => x
  | x :: xs => x ++ "," ++ joinComma xs

mutual

/-- JSON text serialization of a `JVal`, used to compare the string the
source actually sends with the serialization of a genuine array. -/
def jsonSerialize : JVal → String
  | .str s => "\"" ++ jsonEscape s ++ "\""
  | .arr xs => "[" ++ joinComma (jsonSerializeList xs) ++ "]"

def jsonSerializeList : List JVal → List String
  | [] => []
  | x :: xs => jsonSerialize x :: jsonSerializeList xs

end

/-! ### The wait loop — `WaitForPersonalAccessToken`

The loop's environment abstracts the network and the concurrent caller:
`poll n` is the settled value of the `n`-th `waitOnResponseAccessToken`
call; `cancelAt = some n` means the cancellation flag — written once,
`false` to `true`, by a concurrent `Cancel` — reads `true` from the `n`-th
read of `this.cancelFlag` onward (reads are numbered in program order:
each evaluation of the `while` condition is one read, and the post-loop
`if (this.cancelFlag)` is one more); `throwOnCancel` is the value of
`this.throwExceptionOnCancel` at its single read after the loop;
`connectionData` and `sessionToken` are the settled results of
`getAuthenticatedUserId` and `getScopedCompactAccessToken`. -/

structure WaitEnv where
  poll : Nat → Except PollError String
  cancelAt : Option Nat
  throwOnCancel : Bool
  connectionData : String → Except String String
  sessionToken : String → String → Except String String

/-- The value of `this.cancelFlag` at its `readIdx`-th read. -/
def cancelFlagAt (env : WaitEnv) (readIdx : Nat) : Bool :=
  match env.cancelAt with
  | none => false
  | some n => decide (n ≤ readIdx)

inductive WaitError where
  | preconditionNoDeviceCode : WaitError
  | codeExpired : WaitError
  | badCode : WaitError
  | canceled : WaitError
  | pollFailure (e : PollError) : WaitError
  | identityFailure (msg : String) : WaitError
  | mintFailure (msg : String) : WaitError
deriving DecidableEq, Repr

inductive WaitResultKind where
  | ok (personalAccessToken : String) : WaitResultKind
  | undefinedReturn : WaitResultKind
  | err (e : WaitError) : WaitResultKind
  | outOfFuel : WaitResultKind
deriving DecidableEq, Repr

/-- Observable outcome of one `WaitForPersonalAccessToken` call: its
result, the sleep durations in order, how many polls were issued, and
whether the identity-resolution / token-minting calls were made. -/
structure WaitOut where
  result : WaitResultKind
  sleeps : List Nat
  polls : Nat
  identityCalled : Bool
  mintCalled : Bool
deriving DecidableEq, Repr

/-- The statements after the `while` loop (lines 421–435): expired check,
bad-code check, cancellation check (a fresh read of the flag), then the
identity-resolution and token-minting calls. -/
def afterLoop (env : WaitEnv) (readIdx : Nat) (accessToken : String) : WaitOut :=
  if accessToken = EXPIRED then ⟨.err .codeExpired, [], 0, false, false⟩
  else if accessToken = BADCODE then ⟨.err .badCode, [], 0, false, false⟩
  else if cancelFlagAt env readIdx then
    if env.throwOnCancel then ⟨.err .canceled, [], 0, false, false⟩
    else ⟨.undefinedReturn, [], 0, false, false⟩
  else
    match env.connectionData accessToken with
    | .error msg => ⟨.err (.identityFailure msg), [], 0, true, false⟩
    | .ok userId =>
        match env.sessionToken accessToken userId with
        | .error msg => ⟨.err (.mintFailure msg), [], 0, true, true⟩
        | .ok pat => ⟨.ok pat, [], 0, true, true⟩

/-- The `while` loop of `WaitForPersonalAccessToken` (lines 410–420). Each
entry to the loop condition reads the flag at `readIdx`; on `PENDING` the
current interval is slept then the next poll issued; on `BACKOFF` the
interval is doubled first (line 416) and the doubled interval slept. The
returned `sleeps`/`polls` count what happens from this point on. `fuel`
bounds the number of iterations (the source loop has no such bound; a run
that exhausts the fuel reports `outOfFuel`). -/
def runLoop (env : WaitEnv) :
    Nat → Nat → Nat → Nat → String → WaitOut
  | 0, _pollIdx, readIdx, _sleepInterval, accessToken =>
    if ¬ cancelFlagAt env readIdx ∧ accessToken ≠ EXPIRED ∧
        (accessToken = PENDING ∨ accessToken = BACKOFF) then
      ⟨.outOfFuel, [], 0, false, false⟩
    else afterLoop env (readIdx + 1) accessToken
  | fuel + 1, pollIdx, readIdx, sleepInterval, accessToken =>
    if ¬ cancelFlagAt env readIdx ∧ accessToken ≠ EXPIRED ∧
        (accessToken = PENDING ∨ accessToken = BACKOFF) then
      if accessToken = PENDING then
        match env.poll pollIdx with
        | .error e => ⟨.err (.pollFailure e), [sleepInterval], 1, false, false⟩
        | .ok next =>
            let rest := runLoop env fuel (pollIdx + 1) (readIdx + 1) sleepInterval next
            ⟨rest.result, sleepInterval :: rest.sleeps, rest.polls + 1,
             rest.identityCalled, rest.mintCalled⟩
      else
        let doubled := sleepInterval * 2
        match env.poll pollIdx with
        | .error e => ⟨.err (.pollFailure e), [doubled], 1, false, false⟩
        | .ok next =>
            let rest := runLoop env fuel (pollIdx + 1) (readIdx + 1) doubled next
            ⟨rest.result, doubled :: rest.sleeps, rest.polls + 1,
             rest.identityCalled, rest.mintCalled⟩
    else afterLoop env (readIdx + 1) accessToken

/-- Embeds `WaitForPersonalAccessToken` (lines 401–436): the device-code
precondition check, the initial poll, the loop, and the post-loop
processing. -/
def WaitForPersonalAccessToken (st : State) (env : WaitEnv) (fuel : Nat) : WaitOut :=
  if ¬ truthy st.deviceCode then
    ⟨.err .preconditionNoDeviceCode, [], 0, false, false⟩
  else
    match env.poll 0 with
    | .error e => ⟨.err (.pollFailure e), [], 1, false, false⟩
    | .ok first =>
        let rest := runLoop env fuel 1 0 st.interval first
        ⟨rest.result, rest.sleeps, rest.polls + 1, rest.identityCalled, rest.mintCalled⟩

/-! ### Concrete scenario states and environments -/

/-- An orchestrator state right after a successful `GetDeviceFlowDetails`
with the default 5000 ms interval. -/
def stReady : State where
  resourceUri := "https://acct.example.com/"
  authorityHost := DefaultAuthorityHost
  clientId := "client-1"
  redirectUri := "https://redirect.example.com"
  userAgent := "ua"
  grantType := DefaultGrantType
  tokenScope := ""
  tokenDescription := "desc"
  tenantId := some EMPTY_GUID
  deviceCode := some "device-1"
  interval := 5000
  expiresIn := 900000
  cancelFlag := false
  throwExceptionOnCancel := false

/-- A state on which `GetDeviceFlowDetails` has not run: no device code. -/
def stFresh : State := { stReady with deviceCode := none }

/-- Polls answer `BACKOFF` twice, then a bearer token; no cancellation;
identity resolution and minting succeed. -/
def envDoubleBackoff : WaitEnv where
  poll := fun n => if n = 0 then .ok BACKOFF else if n = 1 then .ok BACKOFF else .ok "bearer-1"
  cancelAt := none
  throwOnCancel := false
  connectionData := fun _ => .ok "user-1"
  sessionToken := fun _ _ => .ok "pat-1"

/-- Polls answer `PENDING`, then `BACKOFF`, then a bearer token. -/
def envPendingBackoff : WaitEnv where
  poll := fun n => if n = 0 then .ok PENDING else if n = 1 then .ok BACKOFF else .ok "bearer-1"
  cancelAt := none
  throwOnCancel := false
  connectionData := fun _ => .ok "user-1"
  sessionToken := fun _ _ => .ok "pat-1"

/-- Polls answer `PENDING` forever; the flag already reads `true` at the
first check of the loop condition. -/
def envCancelImmediate (throwOnCancel : Bool) : WaitEnv where
  poll := fun _ => .ok PENDING
  cancelAt := some 0
  throwOnCancel := throwOnCancel
  connectionData := fun _ => .ok "user-1"
  sessionToken := fun _ _ => .ok "pat-1"

/-- The first poll already yields a bearer token, but the flag is set
between the loop-condition read and the post-loop cancellation check. -/
def envCancelAfterToken (throwOnCancel : Bool) : WaitEnv where
  poll := fun _ => .ok "bearer-1"
  cancelAt := some 1
  throwOnCancel := throwOnCancel
  connectionData := fun _ => .ok "user-1"
  sessionToken := fun _ _ => .ok "pat-1"

/-! ### Supporting lemmas -/

lemma afterLoop_sleeps_nil (env : WaitEnv) (readIdx : Nat) (accessToken : String) :
    (afterLoop env readIdx accessToken).sleeps = [] := by
  unfold afterLoop
  repeat' split
  all_goals rfl

lemma cancelFlagAt_mono (env : WaitEnv) {i j : Nat} (hij : i ≤ j)
    (h : cancelFlagAt env i = true) : cancelFlagAt env j = true := by
  cases hc : env.cancelAt with
  | none => simp [cancelFlagAt, hc] at h
  | some n =>
      simp only [cancelFlagAt, hc, decide_eq_true_eq] at h ⊢
      omega

/-- The sleep durations produced by the loop from a given interval on form
a non-decreasing chain starting at that interval. -/
lemma runLoop_sleeps_chain (env : WaitEnv) :
    ∀ (fuel pollIdx readIdx sleepInterval : Nat) (accessToken : String),
      List.Chain (· ≤ ·) sleepInterval
        (runLoop env fuel pollIdx readIdx sleepInterval accessToken).sleeps := by
  intro fuel
  induction fuel with
  | zero =>
      intro pollIdx readIdx sleepInterval accessToken
      rw [runLoop]
      split
      · exact List.Chain.nil
      · rw [afterLoop_sleeps_nil]
        exact List.Chain.nil
  | succ f ih =>
      intro pollIdx readIdx sleepInterval accessToken
      rw [runLoop]
      split
      · split
        · cases hp : env.poll pollIdx with
          | error e =>
              simp only [hp]
              exact List.Chain.cons (le_refl _) List.Chain.nil
          | ok next =>
              simp only [hp]
              exact List.Chain.cons (le_refl _) (ih _ _ _ next)
        · cases hp : env.poll pollIdx with
          | error e =>
              simp only [hp]
              exact List.Chain.cons (by omega) List.Chain.nil
          | ok next =>
              simp only [hp]
              exact List.Chain.cons (by omega) (ih _ _ _ next)
      · rw [afterLoop_sleeps_nil]
        exact List.Chain.nil

lemma afterLoop_canceled (env : WaitEnv) (readIdx : Nat) (accessToken : String)
    (hne : accessToken ≠ EXPIRED) (hnb : accessToken ≠ BADCODE)
    (hflag : cancelFlagAt env readIdx = true) :
    afterLoop env readIdx accessToken
      = ⟨if env.throwOnCancel then .err .canceled else .undefinedReturn,
         [], 0, false, false⟩ := by
  unfold afterLoop
  rw [if_neg hne, if_neg hnb, if_pos hflag]
  cases h : env.throwOnCancel <;> simp [h]

/-! ### Claim theorems -/

/-- C2: within one `WaitForPersonalAccessToken` call starting from a poll
interval of 5000 ms, each `BackOff` outcome doubles the sleep interval
before the sleep that precedes the next poll (after one `BackOff` the next
sleep is 10000 ms, after two it is 20000 ms), a `Pending` outcome sleeps
the current unchanged interval, and the sequence of sleeps is
monotonically non-decreasing and never reset within one flow. -/
theorem claim_C2_backoff_doubling :
    (∀ (st : State) (env : WaitEnv) (fuel : Nat),
        List.Chain (· ≤ ·) st.interval
          (WaitForPersonalAccessToken st env fuel).sleeps)
  ∧ (∀ (env : WaitEnv) (fuel pollIdx readIdx sleepInterval : Nat),
        cancelFlagAt env readIdx = false →
        (runLoop env (fuel + 1) pollIdx readIdx sleepInterval BACKOFF).sleeps.head?
          = some (sleepInterval * 2))
  ∧ (∀ (env : WaitEnv) (fuel pollIdx readIdx sleepInterval : Nat),
        cancelFlagAt env readIdx = false →
        (runLoop env (fuel + 1) pollIdx readIdx sleepInterval PENDING).sleeps.head?
          = some sleepInterval)
  ∧ (WaitForPersonalAccessToken stReady envDoubleBackoff 10).sleeps = [10000, 20000]
  ∧ (WaitForPersonalAccessToken stReady envPendingBackoff 10).sleeps = [5000, 10000] := by
  refine ⟨?_, ?_, ?_, rfl, rfl⟩
  · intro st env fuel
    unfold WaitForPersonalAccessToken
    split
    · exact List.Chain.nil
    · cases hp : env.poll 0 with
      | error e =>
          simp only [hp]
          exact List.Chain.nil
      | ok first =>
          simp only [hp]
          exact runLoop_sleeps_chain env fuel 1 0 st.interval first
  · intro env fuel pollIdx readIdx sleepInterval hflag
    rw [runLoop, hflag]
    rw [if_pos (by decide), if_neg (by decide)]
    cases hp : env.poll pollIdx <;> simp [hp]
  · intro env fuel pollIdx readIdx sleepInterval hflag
    rw [runLoop, hflag]
    rw [if_pos (by decide), if_pos (by decide)]
    cases hp : env.poll pollIdx <;> simp [hp]

/-- Witness for C2 at a concrete run: one `BackOff` at interval 5000
makes the next sleep 10000. -/
theorem claim_C2_backoff_doubling_witness :
    (runLoop envDoubleBackoff 5 1 0 5000 BACKOFF).sleeps.head? = some (5000 * 2) :=
  claim_C2_backoff_doubling.2.1 envDoubleBackoff 4 1 0 5000 (by decide)

/-- C3: when cancellation is observed at an iteration boundary of the wait
loop (the flag reads `true` at a loop-condition check while the current
outcome is `Pending` or `BackOff`), the loop stops — no further sleeps and
no further polls, so cancellation never interrupts an in-flight request —
and `WaitForPersonalAccessToken` returns the absent result when
`Cancel` was called with a falsy `throwOnCancel` and fails with the
cancellation error when it was called with `true`. `Cancel` itself sets the
flag and records the requested behaviour. -/
theorem claim_C3_cancellation :
    (∀ (st : State) (b : Bool),
        (Cancel st (some b)).cancelFlag = true
      ∧ (Cancel st (some b)).throwExceptionOnCancel = b)
  ∧ (∀ (env : WaitEnv) (fuel pollIdx readIdx sleepInterval : Nat) (accessToken : String),
        cancelFlagAt env readIdx = true →
        accessToken = PENDING ∨ accessToken = BACKOFF →
        runLoop env fuel pollIdx readIdx sleepInterval accessToken
          = ⟨if env.throwOnCancel then .err .canceled else .undefinedReturn,
             [], 0, false, false⟩)
  ∧ (∀ fuel : Nat, WaitForPersonalAccessToken stReady (envCancelImmediate false) fuel
        = ⟨.undefinedReturn, [], 1, false, false⟩)
  ∧ (∀ fuel : Nat, WaitForPersonalAccessToken stReady (envCancelImmediate true) fuel
        = ⟨.err .canceled, [], 1, false, false⟩) := by
  have key : ∀ (env : WaitEnv) (fuel pollIdx readIdx sleepInterval : Nat) (accessToken : String),
      cancelFlagAt env readIdx = true →
      accessToken = PENDING ∨ accessToken = BACKOFF →
      runLoop env fuel pollIdx readIdx sleepInterval accessToken
        = ⟨if env.throwOnCancel then .err .canceled else .undefinedReturn,
           [], 0, false, false⟩ := by
    intro env fuel pollIdx readIdx sleepInterval accessToken hflag htok
    have hne : accessToken ≠ EXPIRED := by
      rcases htok with h | h <;> subst h <;> decide
    have hnb : accessToken ≠ BADCODE := by
      rcases htok with h | h <;> subst h <;> decide
    have hmono : cancelFlagAt env (readIdx + 1) = true :=
      cancelFlagAt_mono env (Nat.le_succ readIdx) hflag
    have hcond : ¬ (¬ cancelFlagAt env readIdx ∧ accessToken ≠ EXPIRED ∧
        (accessToken = PENDING ∨ accessToken = BACKOFF)) := by
      intro hc
      exact hc.1 hflag
    cases fuel with
    | zero => rw [runLoop, if_neg hcond, afterLoop_canceled env _ _ hne hnb hmono]
    | succ f => rw [runLoop, if_neg hcond, afterLoop_canceled env _ _ hne hnb hmono]
  refine ⟨fun st b => ⟨rfl, rfl⟩, key, ?_, ?_⟩
  · intro fuel
    have h := key (envCancelImmediate false) fuel 1 0 5000 PENDING
      (by decide) (Or.inl rfl)
    calc WaitForPersonalAccessToken stReady (envCancelImmediate false) fuel
        = ⟨(runLoop (envCancelImmediate false) fuel 1 0 5000 PENDING).result,
           (runLoop (envCancelImmediate false) fuel 1 0 5000 PENDING).sleeps,
           (runLoop (envCancelImmediate false) fuel 1 0 5000 PENDING).polls + 1,
           (runLoop (envCancelImmediate false) fuel 1 0 5000 PENDING).identityCalled,
           (runLoop (envCancelImmediate false) fuel 1 0 5000 PENDING).mintCalled⟩ := rfl
      _ = ⟨.undefinedReturn, [], 1, false, false⟩ := by rw [h]; rfl
  · intro fuel
    have h := key (envCancelImmediate true) fuel 1 0 5000 PENDING
      (by decide) (Or.inl rfl)
    calc WaitForPersonalAccessToken stReady (envCancelImmediate true) fuel
        = ⟨(runLoop (envCancelImmediate true) fuel 1 0 5000 PENDING).result,
           (runLoop (envCancelImmediate true) fuel 1 0 5000 PENDING).sleeps,
           (runLoop (envCancelImmediate true) fuel 1 0 5000 PENDING).polls + 1,
           (runLoop (envCancelImmediate true) fuel 1 0 5000 PENDING).identityCalled,
           (runLoop (envCancelImmediate true) fuel 1 0 5000 PENDING).mintCalled⟩ := rfl
      _ = ⟨.err .canceled, [], 1, false, false⟩ := by rw [h]; rfl

/-- Witness for C3 at a concrete run: the flag reads `true` at the first
loop check while the outcome is `Pending`. -/
theorem claim_C3_cancellation_witness :
    runLoop (envCancelImmediate true) 7 1 0 5000 PENDING
      = ⟨if (envCancelImmediate true).throwOnCancel then .err .canceled
         else .undefinedReturn, [], 0, false, false⟩ :=
  claim_C3_cancellation.2.1 (envCancelImmediate true) 7 1 0 5000 PENDING
    (by decide) (Or.inl rfl)

/-- C5: on an orchestrator whose session holds no device code,
`WaitForPersonalAccessToken` fails with the precondition error and issues
no network calls: zero polls, no identity resolution, no token minting. -/
theorem claim_C5_precondition (st : State) (env : WaitEnv) (fuel : Nat)
    (h : st.deviceCode = none) :
    WaitForPersonalAccessToken st env fuel
      = ⟨.err .preconditionNoDeviceCode, [], 0, false, false⟩ := by
  unfold WaitForPersonalAccessToken
  rw [h]
  rfl

/-- Witness for C5: the concrete pre-`GetDeviceFlowDetails` state. -/
theorem claim_C5_precondition_witness :
    stFresh.deviceCode = none
  ∧ WaitForPersonalAccessToken stFresh envDoubleBackoff 10
      = ⟨.err .preconditionNoDeviceCode, [], 0, false, false⟩ :=
  ⟨rfl, claim_C5_precondition stFresh envDoubleBackoff 10 rfl⟩

/-- C10: when the cancellation flag is set by the time the poll loop
exits, cancellation takes precedence over a successfully obtained access
token: even though the final poll returned an actual bearer token (none of
the four status sentinels), no identity-resolution or token-minting call
is made and the call ends in the cancellation outcome dictated by the
cancellation-behaviour flag. -/
theorem claim_C10_cancel_precedence :
    (∀ (env : WaitEnv) (fuel pollIdx readIdx sleepInterval : Nat) (accessToken : String),
        accessToken ≠ PENDING → accessToken ≠ BACKOFF →
        accessToken ≠ EXPIRED → accessToken ≠ BADCODE →
        cancelFlagAt env (readIdx + 1) = true →
        runLoop env fuel pollIdx readIdx sleepInterval accessToken
          = ⟨if env.throwOnCancel then .err .canceled else .undefinedReturn,
             [], 0, false, false⟩)
  ∧ (∀ fuel : Nat, WaitForPersonalAccessToken stReady (envCancelAfterToken false) fuel
        = ⟨.undefinedReturn, [], 1, false, false⟩)
  ∧ (∀ fuel : Nat, WaitForPersonalAccessToken stReady (envCancelAfterToken true) fuel
        = ⟨.err .canceled, [], 1, false, false⟩) := by
  have key : ∀ (env : WaitEnv) (fuel pollIdx readIdx sleepInterval : Nat) (accessToken : String),
      accessToken ≠ PENDING → accessToken ≠ BACKOFF →
      accessToken ≠ EXPIRED → accessToken ≠ BADCODE →
      cancelFlagAt env (readIdx + 1) = true →
      runLoop env fuel pollIdx readIdx sleepInterval accessToken
        = ⟨if env.throwOnCancel then .err .canceled else .undefinedReturn,
           [], 0, false, false⟩ := by
    intro env fuel pollIdx readIdx sleepInterval accessToken hp hb hne hnb hflag
    have hcond : ¬ (¬ cancelFlagAt env readIdx ∧ accessToken ≠ EXPIRED ∧
        (accessToken = PENDING ∨ accessToken = BACKOFF)) := by
      rintro ⟨-, -, h | h⟩
      · exact hp h
      · exact hb h
    cases fuel with
    | zero => rw [runLoop, if_neg hcond, afterLoop_canceled env _ _ hne hnb hflag]
    | succ f => rw [runLoop, if_neg hcond, afterLoop_canceled env _ _ hne hnb hflag]
  refine ⟨key, ?_, ?_⟩
  · intro fuel
    have h := key (envCancelAfterToken false) fuel 1 0 5000 "bearer-1"
      (by decide) (by decide) (by decide) (by decide) (by decide)
    calc WaitForPersonalAccessToken stReady (envCancelAfterToken false) fuel
        = ⟨(runLoop (envCancelAfterToken false) fuel 1 0 5000 "bearer-1").result,
           (runLoop (envCancelAfterToken false) fuel 1 0 5000 "bearer-1").sleeps,
           (runLoop (envCancelAfterToken false) fuel 1 0 5000 "bearer-1").polls + 1,
           (runLoop (envCancelAfterToken false) fuel 1 0 5000 "bearer-1").identityCalled,
           (runLoop (envCancelAfterToken false) fuel 1 0 5000 "bearer-1").mintCalled⟩ := rfl
      _ = ⟨.undefinedReturn, [], 1, false, false⟩ := by rw [h]; rfl
  · intro fuel
    have h := key (envCancelAfterToken true) fuel 1 0 5000 "bearer-1"
      (by decide) (by decide) (by decide) (by decide) (by decide)
    calc WaitForPersonalAccessToken stReady (envCancelAfterToken true) fuel
        = ⟨(runLoop (envCancelAfterToken true) fuel 1 0 5000 "bearer-1").result,
           (runLoop (envCancelAfterToken true) fuel 1 0 5000 "bearer-1").sleeps,
           (runLoop (envCancelAfterToken true) fuel 1 0 5000 "bearer-1").polls + 1,
           (runLoop (envCancelAfterToken true) fuel 1 0 5000 "bearer-1").identityCalled,
           (runLoop (envCancelAfterToken true) fuel 1 0 5000 "bearer-1").mintCalled⟩ := rfl
      _ = ⟨.err .canceled, [], 1, false, false⟩ := by rw [h]; rfl

/-- Witness for C10 at a concrete run: the final poll already returned a
bearer token, the flag flips before the post-loop check. -/
theorem claim_C10_cancel_precedence_witness :
    runLoop (envCancelAfterToken true) 5 1 0 5000 "bearer-1"
      = ⟨if (envCancelAfterToken true).throwOnCancel then .err .canceled
         else .undefinedReturn, [], 0, false, false⟩ :=
  claim_C10_cancel_precedence.1 (envCancelAfterToken true) 5 1 0 5000 "bearer-1"
    (by decide) (by decide) (by decide) (by decide) (by decide)

/-- C1: the classification of one poll attempt: a resolved response whose
parsed body carries a truthy `access_token` yields that token; an HTTP 400
failure with a parseable error body maps `error` values
`authorization_pending`/`slow_down`/`bad_verification_code`/`code_expired`
to the `PENDING`/`BACKOFF`/`BADCODE`/`EXPIRED` sentinels; any other
`error` value, an unparseable body, a missing error body, or a non-400
status rejects (a fatal transport-level failure) instead of producing one
of the five outcomes. -/
theorem claim_C1_poll_classification :
    (∀ (fields : List (String × String)) (tok : String),
        getField fields "access_token" = some tok → tok ≠ "" →
        waitOnResponseAccessToken (.ok (.obj fields)) = .ok tok)
  ∧ waitOnResponseAccessToken
      (.err ⟨some 400, some (.obj [("error", "authorization_pending")])⟩) = .ok PENDING
  ∧ waitOnResponseAccessToken
      (.err ⟨some 400, some (.obj [("error", "slow_down")])⟩) = .ok BACKOFF
  ∧ waitOnResponseAccessToken
      (.err ⟨some 400, some (.obj [("error", "bad_verification_code")])⟩) = .ok BADCODE
  ∧ waitOnResponseAccessToken
      (.err ⟨some 400, some (.obj [("error", "code_expired")])⟩) = .ok EXPIRED
  ∧ (∀ (sc : Option Nat) (fields : List (String × String)),
        getField fields "error" ≠ some "authorization_pending" →
        getField fields "error" ≠ some "slow_down" →
        getField fields "error" ≠ some "bad_verification_code" →
        getField fields "error" ≠ some "code_expired" →
        waitOnResponseAccessToken (.err ⟨sc, some (.obj fields)⟩)
          = .error (.transport ⟨sc, some (.obj fields)⟩))
  ∧ waitOnResponseAccessToken (.err ⟨some 400, some .malformed⟩) = .error .parseError
  ∧ (∀ e : HttpFailure, e.statusCode ≠ some 400 →
        waitOnResponseAccessToken (.err e) = .error (.transport e))
  ∧ (∀ sc : Option Nat, waitOnResponseAccessToken (.err ⟨sc, none⟩)
        = .error (.transport ⟨sc, none⟩))
  ∧ (∀ fields : List (String × String),
        truthy (getField fields "access_token") = false →
        waitOnResponseAccessToken (.ok (.obj fields)) = .error .noAccessToken)
  ∧ waitOnResponseAccessToken (.ok .malformed) = .error .parseError := by
  refine ⟨?_, by rfl, by rfl, by rfl, by rfl, ?_, by rfl, ?_, ?_, ?_, by rfl⟩
  · intro fields tok h hne
    simp only [waitOnResponseAccessToken, h]
    rw [if_pos hne]
  · intro sc fields h1 h2 h3 h4
    by_cases hsc : sc = some 400
    · subst hsc
      simp only [waitOnResponseAccessToken]
      rw [if_pos (⟨trivial, by simp⟩ : True ∧ some (Body.obj fields) ≠ none)]
      rw [if_neg h1, if_neg h2, if_neg h3, if_neg h4]
    · simp only [waitOnResponseAccessToken]
      rw [if_neg (fun hcon => hsc hcon.1)]
  · intro e hsc
    obtain ⟨sc, eb⟩ := e
    simp only [waitOnResponseAccessToken]
    rw [if_neg (fun hcon => hsc hcon.1)]
  · intro sc
    simp only [waitOnResponseAccessToken]
    rw [if_neg (fun hcon => hcon.2 rfl)]
  · intro fields h
    cases hf : getField fields "access_token" with
    | none => simp only [waitOnResponseAccessToken, hf]
    | some s =>
        rw [hf] at h
        have hs : s = "" := by simpa [truthy] using h
        subst hs
        simp only [waitOnResponseAccessToken, hf]
        rw [if_neg (by simp)]

/-- Witness for C1 at a concrete input: a resolved body carrying an
`access_token` field classifies as that token. -/
theorem claim_C1_poll_classification_witness :
    waitOnResponseAccessToken (.ok (.obj [("access_token", "tok-1")])) = .ok "tok-1" :=
  claim_C1_poll_classification.1 [("access_token", "tok-1")] "tok-1" rfl (by decide)

/-- C4: a single-id tenant header resolves to that id trimmed — including
when it is the all-zero sentinel — and a multi-id header resolves to the
first id (as split, before trimming) that is not the all-zero sentinel,
trimmed; this holds on both the success and the error response path, and
on the spec's two concrete examples. -/
theorem claim_C4_tenant_selection :
    (∀ (v x : String), jsSplit v ',' = [x] → selectTenantId v = some (jsTrim x))
  ∧ (∀ (v x : String) (ids : List String), jsSplit v ',' = ids → ids.length > 1 →
        ids.find? (fun id => id ≠ EMPTY_GUID) = some x →
        selectTenantId v = some (jsTrim x))
  ∧ (∀ (r : Headers) (v t : String),
        getField r "x-vss-resourcetenant" = some v → v ≠ "" →
        selectTenantId v = some t →
        getTenantId (.resolved (some r)) = .ok t
      ∧ getTenantId (.rejected (some r)) = .ok t)
  ∧ getTenantId (.resolved (some [("x-vss-resourcetenant",
        "00000000-0000-0000-0000-000000000000,11111111-1111-1111-1111-111111111111")]))
      = .ok "11111111-1111-1111-1111-111111111111"
  ∧ getTenantId (.rejected (some [("x-vss-resourcetenant", EMPTY_GUID)])) = .ok EMPTY_GUID := by
  refine ⟨?_, ?_, ?_, by rfl, by rfl⟩
  · intro v x h
    simp only [selectTenantId, h]
    rfl
  · intro v x ids h hlen hfind
    simp only [selectTenantId, h]
    rw [if_pos hlen, hfind]
    rfl
  · intro r v t hv hne hsel
    have htr : truthy (some v) = true := by simp [truthy, hne]
    constructor <;>
      simp only [getTenantId, readResourceTenant, hv, htr, if_true, Option.getD_some, hsel]

/-- Witness for C4 at a concrete input: a single id with surrounding
whitespace resolves to the id trimmed. -/
theorem claim_C4_tenant_selection_witness :
    selectTenantId " 11111111-1111-1111-1111-111111111111 "
      = some (jsTrim " 11111111-1111-1111-1111-111111111111 ") :=
  claim_C4_tenant_selection.1 " 11111111-1111-1111-1111-111111111111 "
    " 11111111-1111-1111-1111-111111111111 " (by rfl)

/-- C9 counterexample: when the HEAD probe rejects with an error carrying
no response object at all, `getTenantId` does not fail with the
`Did not receive tenant id` error (the `TenantResolutionError`); it fails
with the `TypeError` thrown by reading the header off `undefined`. -/
theorem claim_C9_counterexample :
    getTenantId (.rejected none) = .error .noResponseTypeError
  ∧ getTenantId (.rejected none) ≠ .error .missingHeader :=
  ⟨rfl, by simp [getTenantId, readResourceTenant]⟩

/-- C9 (amended): tenant resolution fails with the `TenantResolutionError`
whenever the header is absent (or empty) on a response object, on the
success path and on the error path alike; when the failure carries no
response object at all, the header read itself throws a `TypeError`
instead. Either way the failure aborts `GetDeviceFlowDetails` before the
device-code request is issued, and nothing retries it. -/
theorem claim_C9_amended :
    (∀ r : Headers, truthy (getField r "x-vss-resourcetenant") = false →
        getTenantId (.resolved (some r)) = .error .missingHeader
      ∧ getTenantId (.rejected (some r)) = .error .missingHeader)
  ∧ getTenantId (.resolved none) = .error .noResponseTypeError
  ∧ getTenantId (.rejected none) = .error .noResponseTypeError
  ∧ (∀ (h : HeadOutcome) (e : TenantError), getTenantId h = .error e →
        getDeviceFlowDetailsTenantPhase h = (.error e, false)) := by
  refine ⟨?_, rfl, rfl, ?_⟩
  · intro r h
    constructor <;> simp [getTenantId, readResourceTenant, h]
  · intro h e he
    simp [getDeviceFlowDetailsTenantPhase, he]

/-- Witness for C9 (amended) at a concrete input: a response object with
no tenant header at all yields the `TenantResolutionError` on both paths. -/
theorem claim_C9_amended_witness :
    getTenantId (.resolved (some [])) = .error .missingHeader
  ∧ getTenantId (.rejected (some [])) = .error .missingHeader :=
  claim_C9_amended.1 [] rfl

/-- C6: the source declares the token-configuration argument optional but
dereferences it unconditionally (line 110), so omitting it entirely throws
a `TypeError` instead of constructing with defaults; passing an empty
options object produces exactly the defaults the claim describes
(device-code grant, empty scope, generated description). -/
theorem claim_C6_omitted_token_options :
    mkDeviceFlowAuthenticator "https://acct.example.com"
      ⟨none, some "client-1", some "https://redirect.example.com", none⟩ none "ua-default"
      = .error .undefinedTokenOptions
  ∧ mkDeviceFlowAuthenticator "https://acct.example.com"
      ⟨none, some "client-1", some "https://redirect.example.com", none⟩
      (some ⟨none, none, none⟩) "ua-default"
      = .ok {
          resourceUri := "https://acct.example.com/"
          authorityHost := DefaultAuthorityHost
          clientId := "client-1"
          redirectUri := "https://redirect.example.com"
          userAgent := "ua-default"
          grantType := DefaultGrantType
          tokenScope := ""
          tokenDescription := "vsts-device-flow-auth Personal Access Token"
          tenantId := none
          deviceCode := none
          interval := 5000
          expiresIn := 900000
          cancelFlag := false
          throwExceptionOnCancel := false } :=
  ⟨rfl, rfl⟩

/-- C7: the tenant-probe HEAD request carries no `User-Agent` header — its
options pass the `getUserAgentHeaders` method itself, never invoked — while
every other outbound request (device-code issuance, token polls, and the
three authenticated service calls) does carry one. -/
theorem claim_C7_user_agent_headers :
    tenantProbeHeaders = HeadersValue.unappliedFunction
  ∧ carriesUserAgent tenantProbeHeaders = false
  ∧ (∀ ua : String, carriesUserAgent (deviceCodeRequestHeaders ua) = true)
  ∧ (∀ ua : String, carriesUserAgent (tokenPollHeaders ua) = true)
  ∧ (∀ ua tok : String, carriesUserAgent (connectionDataHeaders ua tok) = true)
  ∧ (∀ ua tok : String, carriesUserAgent (locationServiceHeaders ua tok) = true)
  ∧ (∀ ua tok : String, carriesUserAgent (sessionTokenHeaders ua tok) = true) :=
  ⟨rfl, rfl, fun _ => rfl, fun _ => rfl, fun _ _ => rfl, fun _ _ => rfl, fun _ _ => rfl⟩

/-- C8 counterexample: at a concrete identity id the `targetAccounts`
field of the session-token POST body is a string, not an array. -/
theorem claim_C8_counterexample :
    getJField (sessionTokenBody "" "user-1" "desc") "targetAccounts"
      = some (.str "[\"user-1\"]")
  ∧ isArrayValue (getJField (sessionTokenBody "" "user-1" "desc") "targetAccounts") = false :=
  ⟨rfl, rfl⟩

lemma jsonEscapeList_eq_mk (l : List Char) (h : ∀ c ∈ l, c ≠ '"' ∧ c ≠ '\\') :
    jsonEscapeList l = String.mk l := by
  induction l with
  | nil => rfl
  | cons c cs ih =>
      have hc := h c (List.mem_cons_self c cs)
      have hchar : jsonEscapeChar c = String.mk [c] := by
        unfold jsonEscapeChar
        rw [if_neg hc.2, if_neg hc.1]
      rw [jsonEscapeList, hchar, ih (fun x hx => h x (List.mem_cons_of_mem c hx))]
      apply String.ext
      simp [String.data_append]

lemma jsonEscape_eq_self (s : String) (h : ∀ c ∈ s.toList, c ≠ '"' ∧ c ≠ '\\') :
    jsonEscape s = s := by
  unfold jsonEscape
  rw [jsonEscapeList_eq_mk s.toList h]
  cases s
  rfl

/-- C8 (amended): for an identity id with no JSON-special characters, the
`targetAccounts` field of the session-token POST body is the JSON-text
string encoding of the one-element array containing that id — a string
value, never an actual array — while `scope` and `displayName` carry the
configured scope and description. -/
theorem claim_C8_token_body (tokenScope userId tokenDescription : String)
    (hesc : ∀ c ∈ userId.toList, c ≠ '"' ∧ c ≠ '\\') :
    getJField (sessionTokenBody tokenScope userId tokenDescription) "scope"
      = some (.str tokenScope)
  ∧ getJField (sessionTokenBody tokenScope userId tokenDescription) "displayName"
      = some (.str tokenDescription)
  ∧ getJField (sessionTokenBody tokenScope userId tokenDescription) "targetAccounts"
      = some (.str (jsonSerialize (.arr [.str userId])))
  ∧ isArrayValue (getJField (sessionTokenBody tokenScope userId tokenDescription)
      "targetAccounts") = false := by
  have hser : jsonSerialize (.arr [.str userId]) = "[\"" ++ userId ++ "\"]" := by
    simp only [jsonSerialize, jsonSerializeList, joinComma, jsonEscape_eq_self userId hesc]
    apply String.ext
    simp [String.data_append]
  refine ⟨rfl, rfl, ?_, rfl⟩
  rw [hser]
  rfl

/-- Witness for C8 (amended) at a concrete identity id. -/
theorem claim_C8_token_body_witness :
    getJField (sessionTokenBody "" "user-1" "desc") "targetAccounts"
      = some (.str (jsonSerialize (.arr [.str "user-1"]))) :=
  (claim_C8_token_body "" "user-1" "desc" (by decide)).2.2.1

end DeviceFlow

example : (DeviceFlow.WaitForPersonalAccessToken DeviceFlow.stReady DeviceFlow.envDoubleBackoff 10).sleeps
    = [10000, 20000] := rfl

example : (DeviceFlow.WaitForPersonalAccessToken DeviceFlow.stReady DeviceFlow.envDoubleBackoff 10).result
    = .ok "pat-1" := rfl

example : (DeviceFlow.WaitForPersonalAccessToken DeviceFlow.stReady DeviceFlow.envPendingBackoff 10).sleeps
    = [5000, 10000] := rfl

example : DeviceFlow.WaitForPersonalAccessToken DeviceFlow.stReady (DeviceFlow.envCancelAfterToken false) 10
    = ⟨.undefinedReturn, [], 1, false, false⟩ := rfl

example : DeviceFlow.WaitForPersonalAccessToken DeviceFlow.stReady (DeviceFlow.envCancelImmediate true) 10
    = ⟨.err .canceled, [], 1, false, false⟩ := rfl

example : DeviceFlow.WaitForPersonalAccessToken DeviceFlow.stFresh DeviceFlow.envDoubleBackoff 10
    = ⟨.err .preconditionNoDeviceCode, [], 0, false, false⟩ := rfl

example : DeviceFlow.waitOnResponseAccessToken
    (.err ⟨some 400, some (.obj [("error", "authorization_pending")])⟩) = .ok "PENDING" := rfl

example : DeviceFlow.waitOnResponseAccessToken (.ok (.obj [("access_token", "abc")])) = .ok "abc" := rfl

example : DeviceFlow.waitOnResponseAccessToken
    (.err ⟨some 400, some (.obj [("error", "interaction_required")])⟩)
    = .error (.transport ⟨some 400, some (.obj [("error", "interaction_required")])⟩) := rfl
